import Mathlib

/-!
Shallow embedding of the core of the `ai_trading_grid` repository
(`src/trend_analyzer.py`, `src/alternative_data.py`, `src/monitor.py`)
and proofs of the specification claims about it.

Numbers are embedded as rationals (`ℚ`): the Python code computes with
IEEE doubles, and every value a claim inspects is either exact in both
semantics or an IEEE special value (NaN / division by zero), which we
model with `Option ℚ` (`none` = undefined), matching pandas' NaN
propagation through rolling windows and comparisons
(`NaN cmp x = False` in Python).
-/

namespace AiTradingGrid

/-- Exact rational division, written through `Rat.divInt` so that the
kernel can evaluate it on literals (`Rat.inv` is irreducible);
`qdiv_eq` proves it is the field division of `ℚ`. Every `/` between
floats in the Python source is embedded as `qdiv`. -/
def qdiv (a b : ℚ) : ℚ := Rat.divInt (a.num * b.den) (a.den * b.num)

theorem qdiv_eq (a b : ℚ) : qdiv a b = a / b := by
  rcases eq_or_ne b 0 with rfl | hb
  · show Rat.divInt (a.num * (1 : ℤ)) ((a.den : ℤ) * 0) = a / 0
    rw [mul_zero, Rat.divInt_zero, div_zero]
  · have hbn : b.num ≠ 0 := Rat.num_ne_zero.mpr hb
    rw [qdiv, div_eq_mul_inv]
    show _ = a * b.inv
    rw [Rat.inv_def]
    conv_rhs => rw [← Rat.num_divInt_den a]
    rw [Rat.divInt_mul_divInt _ _ (Int.ofNat_ne_zero.mpr a.den_nz) hbn]

/-- Trend categories, from `TrendType` in `src/trend_analyzer.py`. -/
inductive TrendType where
  | SIDEWAYS
  | UPTREND
  | DOWNTREND
  | UNKNOWN
deriving DecidableEq, Repr

/-- Analyzer configuration, from `TrendAnalyzer.__init__`:
`bb_period`/`bb_std` (Bollinger window and multiplier), `rsi_period`,
`rsi_overbought`/`rsi_oversold` (stored but unused by classification),
`ma_short`/`ma_long`, `sideways_threshold`, `trend_confirmation_periods`. -/
structure TAConfig where
  bbPeriod : Nat
  bbStdMult : ℚ
  rsiPeriod : Nat
  rsiOverbought : ℚ
  rsiOversold : ℚ
  maShort : Nat
  maLong : Nat
  sidewaysThreshold : ℚ
  trendConfirmation : Nat
deriving DecidableEq, Repr

/-- The default configuration values from `TrendAnalyzer.__init__`
(`period=20, std_dev=2, rsi_period=14, 70/30, ma 10/30,
sideways_threshold=0.02, trend_confirmation_periods=3`). -/
def defaultConfig : TAConfig :=
  ⟨20, 2, 14, 70, 30, 10, 30, qdiv 1 50, 3⟩

/-- The six alertable transitions, the `alert_changes` list of
`TrendAnalyzer.detect_trend_change`, as ordered pairs
(previous, current). -/
def alertChanges : List (TrendType × TrendType) :=
  [ (TrendType.SIDEWAYS, TrendType.UPTREND),
    (TrendType.SIDEWAYS, TrendType.DOWNTREND),
    (TrendType.UPTREND, TrendType.SIDEWAYS),
    (TrendType.DOWNTREND, TrendType.SIDEWAYS),
    (TrendType.UPTREND, TrendType.DOWNTREND),
    (TrendType.DOWNTREND, TrendType.UPTREND) ]

/-- `TrendAnalyzer.detect_trend_change(current_trend, previous_trend)`:
false when the previous trend is UNKNOWN, otherwise membership of
(previous, current) in `alertChanges`. -/
def detectTrendChange (currentTrend previousTrend : TrendType) : Bool :=
  if previousTrend = TrendType.UNKNOWN then false
  else decide ((previousTrend, currentTrend) ∈ alertChanges)

/-- C2: `detect_trend_change` is true exactly on the six allow-listed
ordered pairs (previous, current); in particular it is false whenever
previous = Unknown and whenever previous = current. -/
theorem detectTrendChange_spec :
    (∀ p c : TrendType,
        detectTrendChange c p = true ↔ (p, c) ∈ alertChanges) ∧
    (∀ c : TrendType, detectTrendChange c TrendType.UNKNOWN = false) ∧
    (∀ t : TrendType, detectTrendChange t t = false) := by
  refine ⟨fun p c => ?_, fun c => ?_, fun t => ?_⟩
  · cases p <;> cases c <;> simp [detectTrendChange, alertChanges]
  · cases c <;> rfl
  · cases t <;> rfl

/-! ## Hybrid data source failover (`HybridDataSource` in `src/alternative_data.py`) -/

/-- One OHLCV candle (the numeric columns of the DataFrames the code
passes around). -/
structure Candle where
  open_ : ℚ
  high : ℚ
  low : ℚ
  close : ℚ
  volume : ℚ
deriving DecidableEq, Repr

/-- Outcome of one call into the primary (Binance) source: it either
returns a value (possibly `none`, which the hybrid layer checks for) or
raises an exception. -/
inductive PrimaryOutcome (α : Type) where
  | returns (v : Option α)
  | raises
deriving DecidableEq, Repr

/-- Mutable state of a `HybridDataSource` instance: the sticky
`use_alternative` flag set in `__init__` to `False`. -/
structure HybridState where
  useAlternative : Bool
deriving DecidableEq, Repr

/-- Result of one hybrid call: new state, the value served to the
caller, and whether the primary source was invoked during the call. -/
structure HybridCallResult (α : Type) where
  state : HybridState
  served : Option α
  primaryInvoked : Bool
deriving DecidableEq, Repr

/-- `HybridDataSource.get_klines`: when not yet degraded, try the
primary; a non-None non-empty frame is returned as is, a None/empty
frame falls through to the alternative source for this call, and a
raised exception sets `use_alternative = True` before falling through.
Once degraded, the primary is not invoked at all and the alternative
source's answer is served. -/
def hybridGetKlines (st : HybridState) (primary : PrimaryOutcome (List Candle))
    (alt : Option (List Candle)) : HybridCallResult (List Candle) :=
  if st.useAlternative then ⟨st, alt, false⟩
  else
    match primary with
    | PrimaryOutcome.returns df =>
        match df with
        | some l => if l.length > 0 then ⟨st, some l, true⟩ else ⟨st, alt, true⟩
        | none => ⟨st, alt, true⟩
    | PrimaryOutcome.raises => ⟨⟨true⟩, alt, true⟩

/-- `HybridDataSource.get_ticker_price`: same shape as `get_klines`
with a `price is not None` check instead of the emptiness check. -/
def hybridGetTickerPrice (st : HybridState) (primary : PrimaryOutcome ℚ)
    (alt : Option ℚ) : HybridCallResult ℚ :=
  if st.useAlternative then ⟨st, alt, false⟩
  else
    match primary with
    | PrimaryOutcome.returns p =>
        match p with
        | some v => ⟨st, some v, true⟩
        | none => ⟨st, alt, true⟩
    | PrimaryOutcome.raises => ⟨⟨true⟩, alt, true⟩

/-- One scripted call against a hybrid instance: which method is
called, the primary's behaviour for that call, and what the
alternative source would answer. -/
inductive HybridCall where
  | klines (primary : PrimaryOutcome (List Candle)) (alt : Option (List Candle))
  | ticker (primary : PrimaryOutcome ℚ) (alt : Option ℚ)

/-- State reached and primary-invocation flags emitted by running a
sequence of calls against one hybrid instance. -/
def runHybrid (st : HybridState) : List HybridCall → HybridState × List Bool
  | [] => (st, [])
  | HybridCall.klines p a :: rest =>
      let r := hybridGetKlines st p a
      let t := runHybrid r.state rest
      (t.1, r.primaryInvoked :: t.2)
  | HybridCall.ticker p a :: rest =>
      let r := hybridGetTickerPrice st p a
      let t := runHybrid r.state rest
      (t.1, r.primaryInvoked :: t.2)

/-- C3: the failover flag is one-directional. A raised primary failure
during either call flips the instance to Degraded, and from a Degraded
state every call (klines or ticker, whatever the primary would now do)
serves the alternative source's answer without invoking the primary,
and the state stays Degraded for the rest of the trace. -/
theorem hybrid_failover_one_directional :
    (∀ st alt, st.useAlternative = false →
      (hybridGetKlines st PrimaryOutcome.raises alt).state.useAlternative = true) ∧
    (∀ st alt, st.useAlternative = false →
      (hybridGetTickerPrice st PrimaryOutcome.raises alt).state.useAlternative = true) ∧
    (∀ st p alt, st.useAlternative = true →
      hybridGetKlines st p alt = ⟨st, alt, false⟩) ∧
    (∀ st p alt, st.useAlternative = true →
      hybridGetTickerPrice st p alt = ⟨st, alt, false⟩) ∧
    (∀ calls st, st.useAlternative = true →
      (runHybrid st calls).1.useAlternative = true ∧
      ∀ b ∈ (runHybrid st calls).2, b = false) := by
  refine ⟨?_, ?_, ?_, ?_, ?_⟩
  · intro st alt h
    obtain ⟨u⟩ := st
    cases u with
    | false => rfl
    | true => cases h
  · intro st alt h
    obtain ⟨u⟩ := st
    cases u with
    | false => rfl
    | true => cases h
  · intro st p alt h
    obtain ⟨u⟩ := st
    cases u with
    | false => cases h
    | true => rfl
  · intro st p alt h
    obtain ⟨u⟩ := st
    cases u with
    | false => cases h
    | true => rfl
  · intro calls
    induction calls with
    | nil => intro st h; exact ⟨h, by intro b hb; cases hb⟩
    | cons hd tl ih =>
        intro st h
        obtain ⟨u⟩ := st
        cases u with
        | false => cases h
        | true =>
            cases hd with
            | klines p a =>
                have hk : hybridGetKlines ⟨true⟩ p a = ⟨⟨true⟩, a, false⟩ := rfl
                have := ih ⟨true⟩ rfl
                refine ⟨?_, ?_⟩
                · simpa [runHybrid, hk] using this.1
                · intro b hb
                  simp only [runHybrid, hk] at hb
                  rcases List.mem_cons.mp hb with h1 | h2
                  · exact h1
                  · exact this.2 b h2
            | ticker p a =>
                have hk : hybridGetTickerPrice ⟨true⟩ p a = ⟨⟨true⟩, a, false⟩ := rfl
                have := ih ⟨true⟩ rfl
                refine ⟨?_, ?_⟩
                · simpa [runHybrid, hk] using this.1
                · intro b hb
                  simp only [runHybrid, hk] at hb
                  rcases List.mem_cons.mp hb with h1 | h2
                  · exact h1
                  · exact this.2 b h2

/-- C3 witness: a concrete trace. A primary exception on the first
klines call degrades the instance; the two following calls (whose
primary would succeed) never invoke the primary and serve the
alternative answers, ending Degraded. -/
theorem hybrid_failover_one_directional_witness :
    (hybridGetKlines ⟨false⟩ PrimaryOutcome.raises none).state.useAlternative = true ∧
    hybridGetKlines ⟨true⟩ (PrimaryOutcome.returns (some [⟨1, 1, 1, 1, 1⟩])) none
      = ⟨⟨true⟩, none, false⟩ ∧
    hybridGetTickerPrice ⟨true⟩ (PrimaryOutcome.returns (some 5)) (some 7)
      = ⟨⟨true⟩, some 7, false⟩ ∧
    ((runHybrid ⟨true⟩
        [HybridCall.ticker (PrimaryOutcome.returns (some 5)) (some 7)]).1.useAlternative = true ∧
      ∀ b ∈ (runHybrid ⟨true⟩
        [HybridCall.ticker (PrimaryOutcome.returns (some 5)) (some 7)]).2, b = false) :=
  ⟨hybrid_failover_one_directional.1 ⟨false⟩ none rfl,
   hybrid_failover_one_directional.2.2.1 ⟨true⟩ _ none rfl,
   hybrid_failover_one_directional.2.2.2.1 ⟨true⟩ _ (some 7) rfl,
   hybrid_failover_one_directional.2.2.2.2 _ ⟨true⟩ rfl⟩

/-! ## Indicator engine (`TrendAnalyzer.calculate_*` in `src/trend_analyzer.py`)

Each pandas column is embedded index-wise as a function
`List Candle → Nat → Option ℚ`; `none` stands for NaN (incomplete
rolling window, propagated NaN, or an IEEE special produced by a
division whose result no claim inspects numerically). -/

/-- Arithmetic mean of a list of rationals (`Series.rolling(w).mean()`
applied to one complete window). -/
def meanQ (l : List ℚ) : ℚ := qdiv l.sum (l.length : ℚ)

/-- Sample variance with N−1 denominator (square of pandas
`Series.rolling(w).std()`, which uses `ddof=1`). -/
def svarQ (l : List ℚ) : ℚ :=
  qdiv (l.map (fun x => (x - meanQ l) ^ 2)).sum ((l.length : ℚ) - 1)

/-- Computable stand-in for the real square root (`numpy.sqrt`): exact
on rationals whose numerator and denominator are perfect squares —
which covers every value the claims below inspect (variance 0, and the
constant factor `sqrt(period)` whose exact value no claim reads). -/
def sqrtQ (q : ℚ) : ℚ := qdiv (Nat.sqrt q.num.toNat : ℚ) (Nat.sqrt q.den : ℚ)

/-- Collapse a window of possibly-NaN values: `some` of the list when
every entry is defined, `none` otherwise (pandas yields NaN for a
window containing any NaN, since `min_periods` defaults to the window
size). -/
def optList : List (Option ℚ) → Option (List ℚ)
  | [] => some []
  | none :: _ => none
  | some x :: rest => (optList rest).map (fun l => x :: l)

/-- The trailing rolling window of width `w` ending at index `i` of the
column `f`, as pandas `rolling(window=w)` forms it: undefined while
fewer than `w` rows precede (and for `w = 0`, which pandas rejects),
otherwise the values at indices `i+1-w … i`, undefined if any of them
is. -/
def winF (f : Nat → Option ℚ) (w i : Nat) : Option (List ℚ) :=
  if w = 0 ∨ i + 1 < w then none
  else optList ((List.range' (i + 1 - w) w).map f)

/-- The `close` column: defined exactly on the frame's indices. -/
def closeAt (xs : List Candle) (i : Nat) : Option ℚ := (xs[i]?).map Candle.close

/-- The `high` column. -/
def highAt (xs : List Candle) (i : Nat) : Option ℚ := (xs[i]?).map Candle.high

/-- The `low` column. -/
def lowAt (xs : List Candle) (i : Nat) : Option ℚ := (xs[i]?).map Candle.low

/-- `df['close'].diff()`: NaN at index 0, else `close[i] − close[i−1]`. -/
def deltaAt (xs : List Candle) (i : Nat) : Option ℚ :=
  if i = 0 then none
  else
    match closeAt xs i, closeAt xs (i - 1) with
    | some a, some b => some (a - b)
    | _, _ => none

/-- `delta.where(delta > 0, 0)`: on the frame's indices the positive
delta or 0 — note `NaN > 0` is False in pandas, so the undefined delta
at index 0 becomes 0, not NaN. -/
def gainAt (xs : List Candle) (i : Nat) : Option ℚ :=
  if i < xs.length then
    some (match deltaAt xs i with
          | some d => if 0 < d then d else 0
          | none => 0)
  else none

/-- `(-delta).where(delta < 0, 0)` (the magnitude of negative deltas),
with the same NaN-to-0 effect at index 0. -/
def lossAt (xs : List Candle) (i : Nat) : Option ℚ :=
  if i < xs.length then
    some (match deltaAt xs i with
          | some d => if d < 0 then -d else 0
          | none => 0)
  else none

/-- `bb_middle`: rolling mean of close over `bb_period`. -/
def bbMiddleAt (cfg : TAConfig) (xs : List Candle) (i : Nat) : Option ℚ :=
  (winF (closeAt xs) cfg.bbPeriod i).map meanQ

/-- `bb_std`: rolling sample standard deviation of close over
`bb_period`; undefined for windows of width ≤ 1 (pandas: `ddof=1`
gives NaN for `window=1`). -/
def bbStdAt (cfg : TAConfig) (xs : List Candle) (i : Nat) : Option ℚ :=
  if cfg.bbPeriod ≤ 1 then none
  else (winF (closeAt xs) cfg.bbPeriod i).map (fun l => sqrtQ (svarQ l))

/-- `bb_upper = bb_middle + bb_std * std_dev`. -/
def bbUpperAt (cfg : TAConfig) (xs : List Candle) (i : Nat) : Option ℚ :=
  match bbMiddleAt cfg xs i, bbStdAt cfg xs i with
  | some m, some s => some (m + s * cfg.bbStdMult)
  | _, _ => none

/-- `bb_lower = bb_middle - bb_std * std_dev`. -/
def bbLowerAt (cfg : TAConfig) (xs : List Candle) (i : Nat) : Option ℚ :=
  match bbMiddleAt cfg xs i, bbStdAt cfg xs i with
  | some m, some s => some (m - s * cfg.bbStdMult)
  | _, _ => none

/-- `bb_width = (bb_upper − bb_lower) / bb_middle`; a zero middle band
gives an IEEE special (±inf or NaN), embedded as undefined. -/
def bbWidthAt (cfg : TAConfig) (xs : List Candle) (i : Nat) : Option ℚ :=
  match bbUpperAt cfg xs i, bbLowerAt cfg xs i, bbMiddleAt cfg xs i with
  | some u, some l, some m => if m = 0 then none else some (qdiv (u - l) m)
  | _, _, _ => none

/-- `bb_position = (close − bb_lower) / (bb_upper − bb_lower)`; on a
zero-width band the division by zero yields an IEEE special (NaN when
close = lower), embedded as undefined — the source has no explicit
handling or sentinel. -/
def bbPositionAt (cfg : TAConfig) (xs : List Candle) (i : Nat) : Option ℚ :=
  match closeAt xs i, bbUpperAt cfg xs i, bbLowerAt cfg xs i with
  | some c, some u, some l => if u - l = 0 then none else some (qdiv (c - l) (u - l))
  | _, _, _ => none

/-- Rolling mean of gains over `rsi_period`. -/
def gainSmaAt (cfg : TAConfig) (xs : List Candle) (i : Nat) : Option ℚ :=
  (winF (gainAt xs) cfg.rsiPeriod i).map meanQ

/-- Rolling mean of losses over `rsi_period`. -/
def lossSmaAt (cfg : TAConfig) (xs : List Candle) (i : Nat) : Option ℚ :=
  (winF (lossAt xs) cfg.rsiPeriod i).map meanQ

/-- `rs = gain/loss; rsi = 100 − 100/(1+rs)`, with the IEEE semantics
of the two divisions at `loss = 0`: `gain/0 = ±inf` makes the second
fraction 0, so RSI is exactly 100 for nonzero gain, and `0/0 = NaN`
leaves RSI undefined. -/
def rsiAt (cfg : TAConfig) (xs : List Candle) (i : Nat) : Option ℚ :=
  match gainSmaAt cfg xs i, lossSmaAt cfg xs i with
  | some g, some l =>
      if l = 0 then (if g = 0 then none else some 100)
      else some (100 - qdiv 100 (1 + qdiv g l))
  | _, _ => none

/-- `ma_short`: rolling mean of close over `short_period`. -/
def maShortAt (cfg : TAConfig) (xs : List Candle) (i : Nat) : Option ℚ :=
  (winF (closeAt xs) cfg.maShort i).map meanQ

/-- `ma_long`: rolling mean of close over `long_period`. -/
def maLongAt (cfg : TAConfig) (xs : List Candle) (i : Nat) : Option ℚ :=
  (winF (closeAt xs) cfg.maLong i).map meanQ

/-- `ma_diff_pct = (ma_short − ma_long) / ma_long * 100`; a zero long
average gives an IEEE special, embedded as undefined. -/
def maDiffPctAt (cfg : TAConfig) (xs : List Candle) (i : Nat) : Option ℚ :=
  match maShortAt cfg xs i, maLongAt cfg xs i with
  | some s, some l => if l = 0 then none else some (qdiv (s - l) l * 100)
  | _, _ => none

/-- `returns = df['close'].pct_change()`: NaN at index 0, else the
relative change, undefined on a zero previous close (IEEE special). -/
def returnsAt (xs : List Candle) (i : Nat) : Option ℚ :=
  if i = 0 then none
  else
    match closeAt xs i, closeAt xs (i - 1) with
    | some a, some b => if b = 0 then none else some (qdiv (a - b) b)
    | _, _ => none

/-- `volatility = returns.rolling(period).std() * sqrt(period)` with
the `period = 20` default used by `get_full_analysis`. -/
def volatilityAt (xs : List Candle) (period : Nat) (i : Nat) : Option ℚ :=
  if period ≤ 1 then none
  else (winF (returnsAt xs) period i).map (fun l => sqrtQ (svarQ l) * sqrtQ (period : ℚ))

/-- `price_range_pct = (high − low) / close * 100`; a zero close gives
an IEEE special, embedded as undefined. -/
def priceRangePctAt (xs : List Candle) (i : Nat) : Option ℚ :=
  match highAt xs i, lowAt xs i, closeAt xs i with
  | some h, some l, some c => if c = 0 then none else some (qdiv (h - l) c * 100)
  | _, _, _ => none

/-- One row of the analyzed frame: the raw candle columns plus every
indicator column added by `get_full_analysis`. -/
structure Row where
  close : ℚ
  high : ℚ
  low : ℚ
  volume : ℚ
  bb_middle : Option ℚ
  bb_std : Option ℚ
  bb_upper : Option ℚ
  bb_lower : Option ℚ
  bb_width : Option ℚ
  bb_position : Option ℚ
  rsi : Option ℚ
  ma_short : Option ℚ
  ma_long : Option ℚ
  ma_diff_pct : Option ℚ
  rets : Option ℚ
  volatility : Option ℚ
  price_range_pct : Option ℚ
deriving DecidableEq, Repr

/-- Row `i` of the analyzed frame. -/
def rowAt (cfg : TAConfig) (xs : List Candle) (c : Candle) (i : Nat) : Row :=
  ⟨c.close, c.high, c.low, c.volume,
   bbMiddleAt cfg xs i, bbStdAt cfg xs i, bbUpperAt cfg xs i, bbLowerAt cfg xs i,
   bbWidthAt cfg xs i, bbPositionAt cfg xs i, rsiAt cfg xs i,
   maShortAt cfg xs i, maLongAt cfg xs i, maDiffPctAt cfg xs i,
   returnsAt xs i, volatilityAt xs 20 i, priceRangePctAt xs i⟩

/-- `TrendAnalyzer.get_full_analysis`: Bollinger bands, RSI, moving
averages and volatility (with its default `period=20`) computed over
the frame, one `Row` per input candle. -/
def getFullAnalysis (cfg : TAConfig) (xs : List Candle) : List Row :=
  xs.mapIdx (fun i c => rowAt cfg xs c i)

/-- Python comparison `o < q` where `o` may be NaN: NaN comparisons are
False. -/
def oltB (o : Option ℚ) (q : ℚ) : Bool :=
  match o with
  | some x => decide (x < q)
  | none => false

/-- Python comparison `q < o` where `o` may be NaN. -/
def ogtB (o : Option ℚ) (q : ℚ) : Bool :=
  match o with
  | some x => decide (q < x)
  | none => false

/-- Python chained comparison `a < o < b` where `o` may be NaN. -/
def obetweenB (a : ℚ) (o : Option ℚ) (b : ℚ) : Bool :=
  match o with
  | some x => decide (a < x) && decide (x < b)
  | none => false

/-- Python `abs(o) < q` where `o` may be NaN. -/
def oabsLtB (o : Option ℚ) (q : ℚ) : Bool :=
  match o with
  | some x => decide (|x| < q)
  | none => false

/-- Number of true entries of a condition list (`sum(conditions)` on a
Python list of booleans). -/
def countTrue (l : List Bool) : Nat := (l.filter id).length

/-- `TrendAnalyzer._determine_trend_type`, taking the latest row's
indicator values read from `analysis` and the boundary closes
`recent_data['close'].iloc[0]` / `.iloc[-1]` of the confirmation
window: three condition lists voted in fixed precedence order, with
Sideways as the default. -/
def determineTrendType (cfg : TAConfig)
    (bbPosition bbWidth rsi maDiffPct : Option ℚ)
    (firstClose lastClose : ℚ) : TrendType :=
  let sidewaysConditions : List Bool :=
    [ oltB bbWidth cfg.sidewaysThreshold,
      obetweenB 30 rsi 70,
      oabsLtB maDiffPct 2,
      obetweenB (qdiv 1 5) bbPosition (qdiv 4 5) ]
  let uptrendConditions : List Bool :=
    [ ogtB maDiffPct 1,
      ogtB bbPosition (qdiv 7 10),
      decide (firstClose * (1 + qdiv cfg.sidewaysThreshold 2) < lastClose) ]
  let downtrendConditions : List Bool :=
    [ oltB maDiffPct (-1),
      oltB bbPosition (qdiv 3 10),
      decide (lastClose < firstClose * (1 - qdiv cfg.sidewaysThreshold 2)) ]
  if 3 ≤ countTrue sidewaysConditions then TrendType.SIDEWAYS
  else if 2 ≤ countTrue uptrendConditions then TrendType.UPTREND
  else if 2 ≤ countTrue downtrendConditions then TrendType.DOWNTREND
  else TrendType.SIDEWAYS

/-- The `analysis` payload of `analyze_trend`: either the single-entry
insufficient-data dict or the latest row's snapshot. -/
inductive AnalysisOut where
  | insufficientData (reason : String)
  | snapshot (price : ℚ)
      (bbPosition bbWidth rsi maDiffPct volatility priceRangePct : Option ℚ)
deriving DecidableEq, Repr

/-- `TrendAnalyzer.analyze_trend` on an analyzed frame: the
insufficient-data guard against `max(bb_period, rsi_period, ma_long)`,
then the latest row's snapshot and `_determine_trend_type` over
`df.tail(trend_confirmation)`. A `none` result models the `IndexError`
Python would raise on an empty positional access (reachable only for
degenerate configurations). -/
def analyzeTrend (cfg : TAConfig) (rows : List Row) :
    Option (TrendType × AnalysisOut) :=
  if rows.length < max cfg.bbPeriod (max cfg.rsiPeriod cfg.maLong) then
    some (TrendType.UNKNOWN, AnalysisOut.insufficientData "数据不足")
  else
    match rows.getLast? with
    | none => none
    | some latest =>
        let recent := rows.drop (rows.length - cfg.trendConfirmation)
        match recent.head?, recent.getLast? with
        | some firstRow, some lastRow =>
            some (determineTrendType cfg latest.bb_position latest.bb_width
                    latest.rsi latest.ma_diff_pct firstRow.close lastRow.close,
                  AnalysisOut.snapshot latest.close latest.bb_position
                    latest.bb_width latest.rsi latest.ma_diff_pct
                    latest.volatility latest.price_range_pct)
        | _, _ => none

/-- Specification-side classifier, written from §4.3 of the spec:
Sideways if at least 3 of the four range conditions hold on the latest
row; else Uptrend if at least 2 of the three bullish conditions hold;
else Downtrend if at least 2 of the mirrored bearish conditions hold;
else Sideways as default. `close[first]`/`close[last]` are the
boundary closes of the confirmation window. -/
def specTrendClassify (cfg : TAConfig)
    (bbPosition bbWidth rsi maDiffPct : Option ℚ)
    (firstClose lastClose : ℚ) : TrendType :=
  let sidewaysVotes : Nat :=
    [ oltB bbWidth cfg.sidewaysThreshold,
      obetweenB 30 rsi 70,
      oabsLtB maDiffPct 2,
      obetweenB (qdiv 1 5) bbPosition (qdiv 4 5) ].count true
  let uptrendVotes : Nat :=
    [ ogtB maDiffPct 1,
      ogtB bbPosition (qdiv 7 10),
      decide (lastClose > firstClose * (1 + qdiv cfg.sidewaysThreshold 2)) ].count true
  let downtrendVotes : Nat :=
    [ oltB maDiffPct (-1),
      oltB bbPosition (qdiv 3 10),
      decide (lastClose < firstClose * (1 - qdiv cfg.sidewaysThreshold 2)) ].count true
  if sidewaysVotes ≥ 3 then TrendType.SIDEWAYS
  else if uptrendVotes ≥ 2 then TrendType.UPTREND
  else if downtrendVotes ≥ 2 then TrendType.DOWNTREND
  else TrendType.SIDEWAYS

theorem count_true_eq_countTrue (l : List Bool) : l.count true = countTrue l := by
  induction l with
  | nil => rfl
  | cons hd tl ih =>
      cases hd <;> simp [List.count_cons, countTrue, List.filter] at ih ⊢ <;> omega

theorem determineTrendType_eq_spec (cfg : TAConfig)
    (p w r m : Option ℚ) (fc lc : ℚ) :
    determineTrendType cfg p w r m fc lc = specTrendClassify cfg p w r m fc lc := by
  unfold determineTrendType specTrendClassify
  simp only [count_true_eq_countTrue, ge_iff_le]

theorem determineTrendType_ne_unknown (cfg : TAConfig)
    (p w r m : Option ℚ) (fc lc : ℚ) :
    determineTrendType cfg p w r m fc lc ≠ TrendType.UNKNOWN := by
  simp only [determineTrendType]
  split
  · simp
  · split
    · simp
    · split <;> simp

/-- C1: on every frame long enough to classify, `analyze_trend` returns
exactly the trend computed by the spec's fixed-precedence rule cascade,
applied to the latest row's indicator values and the boundary closes of
the trailing `trend_confirmation`-row window. -/
theorem analyzeTrend_rule_precedence (cfg : TAConfig) (rows : List Row)
    (latest firstRow lastRow : Row)
    (hlen : ¬ rows.length < max cfg.bbPeriod (max cfg.rsiPeriod cfg.maLong))
    (hlast : rows.getLast? = some latest)
    (hfirst : (rows.drop (rows.length - cfg.trendConfirmation)).head? = some firstRow)
    (htail : (rows.drop (rows.length - cfg.trendConfirmation)).getLast? = some lastRow) :
    analyzeTrend cfg rows
      = some (specTrendClassify cfg latest.bb_position latest.bb_width
                latest.rsi latest.ma_diff_pct firstRow.close lastRow.close,
              AnalysisOut.snapshot latest.close latest.bb_position
                latest.bb_width latest.rsi latest.ma_diff_pct
                latest.volatility latest.price_range_pct) := by
  unfold analyzeTrend
  rw [if_neg hlen, hlast]
  simp only [hfirst, htail, determineTrendType_eq_spec]

/-- Junk analyzed row used to instantiate witness frames. -/
def junkRow : Row :=
  ⟨1, 1, 1, 1, none, none, none, none, none, none, none, none, none, none,
   none, none, none⟩

/-- C1 witness: the rule cascade on a concrete 30-row frame whose
indicators are all undefined votes 0-0-0 and lands on the Sideways
default. -/
theorem analyzeTrend_rule_precedence_witness :
    analyzeTrend defaultConfig (List.replicate 30 junkRow)
      = some (TrendType.SIDEWAYS,
              AnalysisOut.snapshot 1 none none none none none none) := by
  have h := analyzeTrend_rule_precedence defaultConfig
    (List.replicate 30 junkRow) junkRow junkRow junkRow
    (by decide) (by decide) (by decide) (by decide)
  rw [h]
  with_unfolding_all decide

/-- C5: `analyze_trend` on a frame shorter than
`max(bb_period, rsi_period, ma_long)` always returns Unknown with the
single-entry insufficient-data reason, whatever the frame holds; on a
frame at least that long it never returns Unknown. -/
theorem analyzeTrend_insufficient_data :
    (∀ (cfg : TAConfig) (rows : List Row),
        rows.length < max cfg.bbPeriod (max cfg.rsiPeriod cfg.maLong) →
        analyzeTrend cfg rows
          = some (TrendType.UNKNOWN, AnalysisOut.insufficientData "数据不足")) ∧
    (∀ (cfg : TAConfig) (rows : List Row) (t : TrendType) (a : AnalysisOut),
        ¬ rows.length < max cfg.bbPeriod (max cfg.rsiPeriod cfg.maLong) →
        analyzeTrend cfg rows = some (t, a) → t ≠ TrendType.UNKNOWN) := by
  constructor
  · intro cfg rows h
    unfold analyzeTrend
    rw [if_pos h]
  · intro cfg rows t a h heq
    unfold analyzeTrend at heq
    rw [if_neg h] at heq
    rcases hlast : rows.getLast? with _ | latest
    · rw [hlast] at heq; cases heq
    · rw [hlast] at heq
      rcases hh : (rows.drop (rows.length - cfg.trendConfirmation)).head? with _ | firstRow
      · simp only [hh] at heq; cases heq
      · rcases ht : (rows.drop (rows.length - cfg.trendConfirmation)).getLast? with _ | lastRow
        · simp only [hh, ht] at heq; cases heq
        · simp only [hh, ht, Option.some.injEq, Prod.mk.injEq] at heq
          rw [← heq.1]
          exact determineTrendType_ne_unknown cfg _ _ _ _ _ _

/-- C5 witness: the empty frame is insufficient under the default
configuration, and a concrete sufficient 30-row frame classifies to a
trend other than Unknown. -/
theorem analyzeTrend_insufficient_data_witness :
    analyzeTrend defaultConfig []
      = some (TrendType.UNKNOWN, AnalysisOut.insufficientData "数据不足") ∧
    TrendType.SIDEWAYS ≠ TrendType.UNKNOWN :=
  ⟨analyzeTrend_insufficient_data.1 defaultConfig [] (by decide),
   analyzeTrend_insufficient_data.2 defaultConfig (List.replicate 30 junkRow)
     TrendType.SIDEWAYS (AnalysisOut.snapshot 1 none none none none none none)
     (by decide) (by with_unfolding_all decide)⟩

/-! ## Shift invariance of the indicator pipeline (C9)

Appending one candle to the frame leaves every earlier row of
`get_full_analysis` unchanged: every column is computed from a trailing
window of raw values at indices ≤ the row's own index. -/

theorem closeAt_append (xs : List Candle) (c : Candle) {i : Nat}
    (h : i < xs.length) : closeAt (xs ++ [c]) i = closeAt xs i := by
  unfold closeAt
  rw [List.getElem?_append, if_pos h]

theorem highAt_append (xs : List Candle) (c : Candle) {i : Nat}
    (h : i < xs.length) : highAt (xs ++ [c]) i = highAt xs i := by
  unfold highAt
  rw [List.getElem?_append, if_pos h]

theorem lowAt_append (xs : List Candle) (c : Candle) {i : Nat}
    (h : i < xs.length) : lowAt (xs ++ [c]) i = lowAt xs i := by
  unfold lowAt
  rw [List.getElem?_append, if_pos h]

theorem winF_congr {f g : Nat → Option ℚ} {w i : Nat}
    (h : ∀ j, j ≤ i → f j = g j) : winF f w i = winF g w i := by
  unfold winF
  split
  · rfl
  · rename_i hw
    push_neg at hw
    congr 1
    apply List.map_congr_left
    intro j hj
    rcases List.mem_range'.mp hj with ⟨k, hk, rfl⟩
    exact h _ (by omega)

theorem deltaAt_append (xs : List Candle) (c : Candle) {i : Nat}
    (h : i < xs.length) : deltaAt (xs ++ [c]) i = deltaAt xs i := by
  unfold deltaAt
  rw [closeAt_append xs c h, closeAt_append xs c (by omega)]

theorem gainAt_append (xs : List Candle) (c : Candle) {i : Nat}
    (h : i < xs.length) : gainAt (xs ++ [c]) i = gainAt xs i := by
  unfold gainAt
  rw [List.length_append, deltaAt_append xs c h]
  simp only [List.length_singleton]
  rw [if_pos (by omega), if_pos h]

theorem lossAt_append (xs : List Candle) (c : Candle) {i : Nat}
    (h : i < xs.length) : lossAt (xs ++ [c]) i = lossAt xs i := by
  unfold lossAt
  rw [List.length_append, deltaAt_append xs c h]
  simp only [List.length_singleton]
  rw [if_pos (by omega), if_pos h]

theorem returnsAt_append (xs : List Candle) (c : Candle) {i : Nat}
    (h : i < xs.length) : returnsAt (xs ++ [c]) i = returnsAt xs i := by
  unfold returnsAt
  rw [closeAt_append xs c h, closeAt_append xs c (by omega)]

theorem winF_closeAt_append (xs : List Candle) (c : Candle) {w i : Nat}
    (h : i < xs.length) :
    winF (closeAt (xs ++ [c])) w i = winF (closeAt xs) w i :=
  winF_congr (fun j hj => closeAt_append xs c (by omega))

theorem bbMiddleAt_append (cfg : TAConfig) (xs : List Candle) (c : Candle)
    {i : Nat} (h : i < xs.length) :
    bbMiddleAt cfg (xs ++ [c]) i = bbMiddleAt cfg xs i := by
  unfold bbMiddleAt
  rw [winF_closeAt_append xs c h]

theorem bbStdAt_append (cfg : TAConfig) (xs : List Candle) (c : Candle)
    {i : Nat} (h : i < xs.length) :
    bbStdAt cfg (xs ++ [c]) i = bbStdAt cfg xs i := by
  unfold bbStdAt
  rw [winF_closeAt_append xs c h]

theorem bbUpperAt_append (cfg : TAConfig) (xs : List Candle) (c : Candle)
    {i : Nat} (h : i < xs.length) :
    bbUpperAt cfg (xs ++ [c]) i = bbUpperAt cfg xs i := by
  unfold bbUpperAt
  rw [bbMiddleAt_append cfg xs c h, bbStdAt_append cfg xs c h]

theorem bbLowerAt_append (cfg : TAConfig) (xs : List Candle) (c : Candle)
    {i : Nat} (h : i < xs.length) :
    bbLowerAt cfg (xs ++ [c]) i = bbLowerAt cfg xs i := by
  unfold bbLowerAt
  rw [bbMiddleAt_append cfg xs c h, bbStdAt_append cfg xs c h]

theorem bbWidthAt_append (cfg : TAConfig) (xs : List Candle) (c : Candle)
    {i : Nat} (h : i < xs.length) :
    bbWidthAt cfg (xs ++ [c]) i = bbWidthAt cfg xs i := by
  unfold bbWidthAt
  rw [bbUpperAt_append cfg xs c h, bbLowerAt_append cfg xs c h,
      bbMiddleAt_append cfg xs c h]

theorem bbPositionAt_append (cfg : TAConfig) (xs : List Candle) (c : Candle)
    {i : Nat} (h : i < xs.length) :
    bbPositionAt cfg (xs ++ [c]) i = bbPositionAt cfg xs i := by
  unfold bbPositionAt
  rw [closeAt_append xs c h, bbUpperAt_append cfg xs c h,
      bbLowerAt_append cfg xs c h]

theorem gainSmaAt_append (cfg : TAConfig) (xs : List Candle) (c : Candle)
    {i : Nat} (h : i < xs.length) :
    gainSmaAt cfg (xs ++ [c]) i = gainSmaAt cfg xs i := by
  unfold gainSmaAt
  rw [winF_congr (fun j hj => gainAt_append xs c (by omega))]

theorem lossSmaAt_append (cfg : TAConfig) (xs : List Candle) (c : Candle)
    {i : Nat} (h : i < xs.length) :
    lossSmaAt cfg (xs ++ [c]) i = lossSmaAt cfg xs i := by
  unfold lossSmaAt
  rw [winF_congr (fun j hj => lossAt_append xs c (by omega))]

theorem rsiAt_append (cfg : TAConfig) (xs : List Candle) (c : Candle)
    {i : Nat} (h : i < xs.length) :
    rsiAt cfg (xs ++ [c]) i = rsiAt cfg xs i := by
  unfold rsiAt
  rw [gainSmaAt_append cfg xs c h, lossSmaAt_append cfg xs c h]

theorem maShortAt_append (cfg : TAConfig) (xs : List Candle) (c : Candle)
    {i : Nat} (h : i < xs.length) :
    maShortAt cfg (xs ++ [c]) i = maShortAt cfg xs i := by
  unfold maShortAt
  rw [winF_closeAt_append xs c h]

theorem maLongAt_append (cfg : TAConfig) (xs : List Candle) (c : Candle)
    {i : Nat} (h : i < xs.length) :
    maLongAt cfg (xs ++ [c]) i = maLongAt cfg xs i := by
  unfold maLongAt
  rw [winF_closeAt_append xs c h]

theorem maDiffPctAt_append (cfg : TAConfig) (xs : List Candle) (c : Candle)
    {i : Nat} (h : i < xs.length) :
    maDiffPctAt cfg (xs ++ [c]) i = maDiffPctAt cfg xs i := by
  unfold maDiffPctAt
  rw [maShortAt_append cfg xs c h, maLongAt_append cfg xs c h]

theorem volatilityAt_append (xs : List Candle) (c : Candle) (p : Nat)
    {i : Nat} (h : i < xs.length) :
    volatilityAt (xs ++ [c]) p i = volatilityAt xs p i := by
  unfold volatilityAt
  rw [winF_congr (fun j hj => returnsAt_append xs c (by omega))]

theorem priceRangePctAt_append (xs : List Candle) (c : Candle)
    {i : Nat} (h : i < xs.length) :
    priceRangePctAt (xs ++ [c]) i = priceRangePctAt xs i := by
  unfold priceRangePctAt
  rw [highAt_append xs c h, lowAt_append xs c h, closeAt_append xs c h]

theorem rowAt_append (cfg : TAConfig) (xs : List Candle) (c d : Candle)
    {i : Nat} (h : i < xs.length) :
    rowAt cfg (xs ++ [c]) d i = rowAt cfg xs d i := by
  unfold rowAt
  rw [bbMiddleAt_append cfg xs c h, bbStdAt_append cfg xs c h,
      bbUpperAt_append cfg xs c h, bbLowerAt_append cfg xs c h,
      bbWidthAt_append cfg xs c h, bbPositionAt_append cfg xs c h,
      rsiAt_append cfg xs c h, maShortAt_append cfg xs c h,
      maLongAt_append cfg xs c h, maDiffPctAt_append cfg xs c h,
      returnsAt_append xs c h, volatilityAt_append xs c 20 h,
      priceRangePctAt_append xs c h]

/-- Largest trailing lookback (in rows) any indicator column uses: the
Bollinger window, the RSI window plus the one-row diff, both moving
average windows, and the fixed 21-row span of `volatility`
(`pct_change` plus its 20-row rolling window). -/
def maxLookback (cfg : TAConfig) : Nat :=
  max (max cfg.bbPeriod (cfg.rsiPeriod + 1))
    (max (max cfg.maShort cfg.maLong) 21)

theorem getFullAnalysis_stable (cfg : TAConfig) (xs : List Candle)
    (c : Candle) {i : Nat} (h : i < xs.length) :
    (getFullAnalysis cfg (xs ++ [c]))[i]? = (getFullAnalysis cfg xs)[i]? := by
  unfold getFullAnalysis
  rw [List.getElem?_mapIdx, List.getElem?_mapIdx, List.getElem?_append,
      if_pos h]
  rcases hx : xs[i]? with _ | d
  · rfl
  · simp only [Option.map_some']
    rw [rowAt_append cfg xs c d h]

/-- C9: appending one candle to a frame leaves the full indicator
computation unchanged at every index that lies strictly before the
trailing rolling windows ending at the appended point. -/
theorem getFullAnalysis_shift_invariance (cfg : TAConfig)
    (xs : List Candle) (c : Candle) (i : Nat)
    (h : i + maxLookback cfg ≤ xs.length) :
    (getFullAnalysis cfg (xs ++ [c]))[i]? = (getFullAnalysis cfg xs)[i]? :=
  getFullAnalysis_stable cfg xs c
    (by unfold maxLookback at h; omega)

/-- Small configuration used to instantiate the shift-invariance
witness on a short concrete frame. -/
def smallConfig : TAConfig := ⟨2, 2, 2, 70, 30, 2, 2, qdiv 1 50, 2⟩

/-- C9 witness: on a concrete 21-candle frame, appending one candle
leaves row 0 unchanged. -/
theorem getFullAnalysis_shift_invariance_witness :
    (getFullAnalysis smallConfig
        (List.replicate 21 (⟨1, 1, 1, 1, 1⟩ : Candle) ++ [⟨2, 2, 2, 2, 2⟩]))[0]?
      = (getFullAnalysis smallConfig
          (List.replicate 21 (⟨1, 1, 1, 1, 1⟩ : Candle)))[0]? :=
  getFullAnalysis_shift_invariance smallConfig _ _ 0 (by decide)

/-! ## RSI on monotone data (C6) and the Bollinger literal scenario (C7) -/

/-- Close price at index `i`, defaulted to 0 out of range (used only to
phrase monotonicity hypotheses). -/
def closeD (xs : List Candle) (i : Nat) : ℚ := ((xs[i]?).map Candle.close).getD 0

theorem closeAt_eq_closeD (xs : List Candle) {i : Nat} (h : i < xs.length) :
    closeAt xs i = some (closeD xs i) := by
  unfold closeAt closeD
  rw [List.getElem?_eq_getElem h]
  rfl

theorem optList_map_eq_some {f g : Nat → Option ℚ} (l : List Nat)
    (h : ∀ j ∈ l, f j = some ((g j).getD 0)) :
    optList (l.map f) = some (l.map (fun j => (g j).getD 0)) := by
  induction l with
  | nil => rfl
  | cons hd tl ih =>
      simp only [List.map_cons]
      rw [h hd (List.mem_cons_self hd tl)]
      simp only [optList]
      rw [ih (fun j hj => h j (List.mem_cons_of_mem hd hj))]
      rfl

theorem meanQ_pos {l : List ℚ} (h : ∀ x ∈ l, 0 < x) (hne : l ≠ []) :
    0 < meanQ l := by
  rw [meanQ, qdiv_eq]
  apply div_pos (List.sum_pos l h hne)
  have : 0 < l.length := List.length_pos.mpr hne
  exact_mod_cast this

theorem meanQ_zeros {l : List ℚ} (h : ∀ x ∈ l, x = 0) : meanQ l = 0 := by
  rw [meanQ, qdiv_eq, List.sum_eq_zero h, zero_div]

/-- C6: the RSI column is the plain-SMA gain/loss quotient of the
embedding, and (1) on every strictly increasing close series longer
than `rsi_period` it is exactly 100 at every index from `rsi_period`
on (the rolling loss is 0 while the gain is positive), while (2) a
window whose gain SMA and loss SMA are both 0 leaves RSI undefined. -/
theorem rsi_sma_monotone_100 :
    (∀ (cfg : TAConfig) (xs : List Candle),
        0 < cfg.rsiPeriod →
        (∀ j, j < xs.length - 1 → closeD xs j < closeD xs (j + 1)) →
        cfg.rsiPeriod < xs.length →
        ∀ i, cfg.rsiPeriod ≤ i → i < xs.length →
          rsiAt cfg xs i = some 100) ∧
    (∀ (cfg : TAConfig) (xs : List Candle) (i : Nat),
        gainSmaAt cfg xs i = some 0 → lossSmaAt cfg xs i = some 0 →
        rsiAt cfg xs i = none) := by
  constructor
  · intro cfg xs hper hmono hlen i hi hilen
    have hwnot : ¬ (cfg.rsiPeriod = 0 ∨ i + 1 < cfg.rsiPeriod) := by omega
    have hmem : ∀ j ∈ List.range' (i + 1 - cfg.rsiPeriod) cfg.rsiPeriod,
        1 ≤ j ∧ j < xs.length := by
      intro j hj
      rcases List.mem_range'.mp hj with ⟨k, hk, rfl⟩
      omega
    have hdelta : ∀ j, 1 ≤ j → j < xs.length →
        deltaAt xs j = some (closeD xs j - closeD xs (j - 1)) ∧
        0 < closeD xs j - closeD xs (j - 1) := by
      intro j h1 h2
      constructor
      · unfold deltaAt
        rw [if_neg (by omega), closeAt_eq_closeD xs h2,
            closeAt_eq_closeD xs (show j - 1 < xs.length by omega)]
      · have := hmono (j - 1) (by omega)
        rw [show j - 1 + 1 = j by omega] at this
        linarith
    -- the gain window consists of the positive deltas
    have hgain : ∀ j ∈ List.range' (i + 1 - cfg.rsiPeriod) cfg.rsiPeriod,
        gainAt xs j = some ((some (closeD xs j - closeD xs (j - 1))).getD 0) := by
      intro j hj
      obtain ⟨h1, h2⟩ := hmem j hj
      obtain ⟨hd, hpos⟩ := hdelta j h1 h2
      unfold gainAt
      rw [if_pos h2, hd]
      simp only [Option.getD_some]
      rw [if_pos hpos]
    have hloss : ∀ j ∈ List.range' (i + 1 - cfg.rsiPeriod) cfg.rsiPeriod,
        lossAt xs j = some ((some (0 : ℚ)).getD 0) := by
      intro j hj
      obtain ⟨h1, h2⟩ := hmem j hj
      obtain ⟨hd, hpos⟩ := hdelta j h1 h2
      unfold lossAt
      rw [if_pos h2, hd]
      simp only [Option.getD_some]
      rw [if_neg (by linarith)]
    have hgwin : winF (gainAt xs) cfg.rsiPeriod i
        = some ((List.range' (i + 1 - cfg.rsiPeriod) cfg.rsiPeriod).map
            (fun j => ((some (closeD xs j - closeD xs (j - 1))).getD 0))) := by
      rw [winF, if_neg hwnot]
      exact optList_map_eq_some _ hgain
    have hlwin : winF (lossAt xs) cfg.rsiPeriod i
        = some ((List.range' (i + 1 - cfg.rsiPeriod) cfg.rsiPeriod).map
            (fun j => ((some (0 : ℚ)).getD 0))) := by
      rw [winF, if_neg hwnot]
      exact optList_map_eq_some _ hloss
    have hne : List.range' (i + 1 - cfg.rsiPeriod) cfg.rsiPeriod ≠ [] := by
      intro hcontra
      have := congrArg List.length hcontra
      simp only [List.length_range', List.length_nil] at this
      omega
    have hgpos : 0 < meanQ ((List.range' (i + 1 - cfg.rsiPeriod) cfg.rsiPeriod).map
        (fun j => ((some (closeD xs j - closeD xs (j - 1))).getD 0))) := by
      apply meanQ_pos
      · intro x hx
        rcases List.mem_map.mp hx with ⟨j, hj, rfl⟩
        obtain ⟨h1, h2⟩ := hmem j hj
        simpa using (hdelta j h1 h2).2
      · simp only [ne_eq, List.map_eq_nil_iff]
        exact hne
    have hlzero : meanQ ((List.range' (i + 1 - cfg.rsiPeriod) cfg.rsiPeriod).map
        (fun j => ((some (0 : ℚ)).getD 0))) = 0 := by
      apply meanQ_zeros
      intro x hx
      rcases List.mem_map.mp hx with ⟨j, hj, rfl⟩
      rfl
    unfold rsiAt gainSmaAt lossSmaAt
    rw [hgwin, hlwin]
    simp only [Option.map_some']
    rw [hlzero, if_pos rfl, if_neg (by exact ne_of_gt hgpos)]
  · intro cfg xs i hg hl
    unfold rsiAt
    rw [hg, hl]
    simp

/-- C6 witness: on the concrete strictly increasing closes 1,2,3,4 with
`rsi_period = 2` the RSI at index 2 is exactly 100, and on three equal
closes (both SMAs 0) the RSI at index 2 is undefined. -/
theorem rsi_sma_monotone_100_witness :
    rsiAt smallConfig
      [⟨1, 1, 1, 1, 1⟩, ⟨2, 2, 2, 2, 1⟩, ⟨3, 3, 3, 3, 1⟩, ⟨4, 4, 4, 4, 1⟩] 2
      = some 100 ∧
    rsiAt smallConfig [⟨5, 5, 5, 5, 1⟩, ⟨5, 5, 5, 5, 1⟩, ⟨5, 5, 5, 5, 1⟩] 2
      = none :=
  ⟨rsi_sma_monotone_100.1 smallConfig _ (by decide)
      (by with_unfolding_all decide) (by decide) 2 (by decide) (by decide),
   rsi_sma_monotone_100.2 smallConfig _ 2
      (by with_unfolding_all decide) (by with_unfolding_all decide)⟩

/-- The 25-row frame of identical closes 100 from the spec's literal
Bollinger scenario. -/
def constFrame : List Candle := List.replicate 25 ⟨100, 100, 100, 100, 1⟩

/-- C7: with `period=20, std_dev=2` over 25 identical closes of 100,
every index with a complete window has `bb_middle = 100`, `bb_std = 0`
(sample standard deviation), `bb_upper = bb_lower = 100`,
`bb_width = 0`, and `bb_position` undefined — the zero-width band makes
its formula divide by zero and the code leaves the NaN unhandled. -/
theorem bollinger_constant_scenario :
    ∀ i, i < 25 → 19 ≤ i →
      bbMiddleAt defaultConfig constFrame i = some 100 ∧
      bbStdAt defaultConfig constFrame i = some 0 ∧
      bbUpperAt defaultConfig constFrame i = some 100 ∧
      bbLowerAt defaultConfig constFrame i = some 100 ∧
      bbWidthAt defaultConfig constFrame i = some 0 ∧
      bbPositionAt defaultConfig constFrame i = none := by
  with_unfolding_all decide

/-- C7 witness: the scenario instantiated at index 20. -/
theorem bollinger_constant_scenario_witness :
    bbMiddleAt defaultConfig constFrame 20 = some 100 ∧
    bbStdAt defaultConfig constFrame 20 = some 0 ∧
    bbUpperAt defaultConfig constFrame 20 = some 100 ∧
    bbLowerAt defaultConfig constFrame 20 = some 100 ∧
    bbWidthAt defaultConfig constFrame 20 = some 0 ∧
    bbPositionAt defaultConfig constFrame 20 = none :=
  bollinger_constant_scenario 20 (by decide) (by decide)

/-! ## Fallback candle construction
(`AlternativeDataSource.get_historical_data_coingecko`) -/

/-- One candle built by the CoinGecko fallback path from a fetched
price: CoinGecko provides no OHLC, so the code uses the price as open
and close and simulates `high = price * 1.01`, `low = price * 0.99`. -/
def coingeckoCandle (price volume : ℚ) : Candle :=
  ⟨price, price * qdiv 101 100, price * qdiv 99 100, price, volume⟩

/-- The frame built from CoinGecko's parallel price/volume arrays: one
candle per price entry, volume taken positionally when present and 0
otherwise. -/
def coingeckoRows (prices volumes : List ℚ) : List Candle :=
  prices.mapIdx (fun i p => coingeckoCandle p (volumes.getD i 0))

/-- C8: every candle of the fallback path carries
`open = close = p`, `high = p * 1.01`, `low = p * 0.99` exactly, and
the literal price 30000 yields `high = 30300`, `low = 29700`. -/
theorem coingecko_candle_approximation :
    (∀ (prices volumes : List ℚ) (i : Nat), i < prices.length →
        (coingeckoRows prices volumes)[i]?
          = some (coingeckoCandle (prices.getD i 0) (volumes.getD i 0))) ∧
    (∀ p v : ℚ,
        (coingeckoCandle p v).open_ = p ∧
        (coingeckoCandle p v).close = p ∧
        (coingeckoCandle p v).high = p * qdiv 101 100 ∧
        (coingeckoCandle p v).low = p * qdiv 99 100) ∧
    ((coingeckoCandle 30000 0).high = 30300 ∧
      (coingeckoCandle 30000 0).low = 29700) := by
  refine ⟨?_, fun p v => ⟨rfl, rfl, rfl, rfl⟩, ?_⟩
  · intro prices volumes i h
    unfold coingeckoRows
    rw [List.getElem?_mapIdx]
    simp only [List.getD_eq_getElem?_getD, List.getElem?_eq_getElem h,
      Option.map_some', Option.getD_some]
  · constructor
    · show (30000 : ℚ) * qdiv 101 100 = 30300
      rw [qdiv_eq]
      norm_num
    · show (30000 : ℚ) * qdiv 99 100 = 29700
      rw [qdiv_eq]
      norm_num

/-- C8 witness: the first row of a concrete fallback fetch whose price
list is `[30000]` (with no volumes) is the literal candle around
30000. -/
theorem coingecko_candle_approximation_witness :
    (coingeckoRows [30000] [])[0]? = some (coingeckoCandle 30000 0) :=
  coingecko_candle_approximation.1 [30000] [] 0 (by decide)

/-! ## Monitor lifecycle (`TrendMonitor` in `src/monitor.py`) -/

/-- System alert levels used by `AlertManager.send_system_alert`. -/
inductive AlertLevel where
  | INFO
  | WARNING
  | ERROR
deriving DecidableEq, Repr

/-- Externally observable effects of a monitor operation. -/
inductive MonitorAction where
  | systemAlert (level : AlertLevel) (message : String)
  | launchLoopThread
  | logWarning (message : String)
  | sleep (seconds : ℚ)
deriving DecidableEq, Repr

/-- Monitor run state: the `is_monitoring` flag. -/
structure MonitorState where
  isMonitoring : Bool
deriving DecidableEq, Repr

/-- `AlternativeDataSource.test_connectivity`: always returns a dict
with exactly the keys `coingecko` and `cryptocompare` (each probe's
try/except always stores a boolean). -/
def altTestConnectivity (coingeckoOk cryptocompareOk : Bool) :
    List (String × Bool) :=
  [("coingecko", coingeckoOk), ("cryptocompare", cryptocompareOk)]

/-- `HybridDataSource.test_connectivity`: the `binance` probe result
(its try/except always stores a boolean) followed by the alternative
source's dict. -/
def hybridTestConnectivity (binanceOk coingeckoOk cryptocompareOk : Bool) :
    List (String × Bool) :=
  ("binance", binanceOk) :: altTestConnectivity coingeckoOk cryptocompareOk

/-- Python truthiness of a dict: true exactly when it is non-empty,
regardless of its values. -/
def pyTruthy (d : List (String × Bool)) : Bool := !d.isEmpty

/-- `TrendMonitor.start_monitoring`: warn and return if already
running; return after an ERROR system alert when
`not self.api.test_connectivity()`; otherwise set `is_monitoring`,
launch the loop thread and send the started alert. -/
def startMonitoring (st : MonitorState) (probe : List (String × Bool)) :
    MonitorState × List MonitorAction :=
  if st.isMonitoring then (st, [MonitorAction.logWarning "监测已在运行中"])
  else if !(pyTruthy probe) then
    (st, [MonitorAction.systemAlert AlertLevel.ERROR "API连接测试失败，无法开始监测"])
  else
    (⟨true⟩,
     [MonitorAction.launchLoopThread,
      MonitorAction.systemAlert AlertLevel.INFO "走势监测已开始"])

/-- C4: the connectivity-probe abort in `start_monitoring` is dead
code. The hybrid probe returns a three-key dict, which is truthy in
Python whatever its boolean values, so `not self.api.test_connectivity()`
is always false: even when every source is unreachable the start is
not aborted — the monitor flips to Running, launches the loop thread,
and never sends the ERROR alert the claim (and the code's own message)
expects. -/
theorem startMonitoring_abort_unreachable :
    (∀ b g c : Bool, pyTruthy (hybridTestConnectivity b g c) = true) ∧
    startMonitoring ⟨false⟩ (hybridTestConnectivity false false false)
      = (⟨true⟩,
         [MonitorAction.launchLoopThread,
          MonitorAction.systemAlert AlertLevel.INFO "走势监测已开始"]) := by
  constructor
  · intro b g c
    rfl
  · rfl

/-! ## Monitoring rounds and the loop (`TrendMonitor._perform_monitoring_round`,
`TrendMonitor._monitoring_loop`) -/

/-- The `f"{symbol}_{timeframe}"` key of the trend-history dict. -/
def monitorKey (symbol timeframe : String) : String :=
  symbol ++ "_" ++ timeframe

/-- `self.trend_history.get(key, TrendType.UNKNOWN)`. -/
def lookupTrend (hist : List (String × TrendType)) (key : String) : TrendType :=
  ((hist.find? (fun kv => kv.1 == key)).map Prod.snd).getD TrendType.UNKNOWN

/-- `self.trend_history[key] = current_trend` (dict update). -/
def setTrend (hist : List (String × TrendType)) (key : String)
    (t : TrendType) : List (String × TrendType) :=
  (key, t) :: hist.filter (fun kv => kv.1 != key)

/-- `TrendMonitor._monitor_symbol_timeframe` for one (symbol, timeframe)
pair: fetch candles (a `none` fetch stands for a raised/failed call,
caught at the task boundary), bail out on an empty frame, run the full
analysis and classification (a `none` classification stands for an
exception, likewise caught), then read the previous trend, store the
current one, and emit a trend-change alert when the transition is
alertable. Returns the new history, the alerts sent, and the task's
success flag. -/
def monitorTask (cfg : TAConfig)
    (fetch : String → String → Option (List Candle))
    (hist : List (String × TrendType)) (symbol timeframe : String) :
    List (String × TrendType) × List (String × TrendType × TrendType) × Bool :=
  match fetch symbol timeframe with
  | none => (hist, [], false)
  | some df =>
      if df.isEmpty then (hist, [], false)
      else
        match analyzeTrend cfg (getFullAnalysis cfg df) with
        | none => (hist, [], false)
        | some (currentTrend, _) =>
            let key := monitorKey symbol timeframe
            let previousTrend := lookupTrend hist key
            let hist2 := setTrend hist key currentTrend
            if detectTrendChange currentTrend previousTrend then
              (hist2, [(key, previousTrend, currentTrend)], true)
            else (hist2, [], true)

/-- Sequential fold of the per-pair tasks of one round, accumulating
the history, the success and error counts, and the alerts. -/
def runTasks (cfg : TAConfig)
    (fetch : String → String → Option (List Candle)) :
    List (String × String) → List (String × TrendType) →
    List (String × TrendType) × Nat × Nat × List (String × TrendType × TrendType)
  | [], hist => (hist, 0, 0, [])
  | (s, tf) :: rest, hist =>
      let r := monitorTask cfg fetch hist s tf
      let acc := runTasks cfg fetch rest r.1
      (acc.1,
       acc.2.1 + (if r.2.2 then 1 else 0),
       acc.2.2.1 + (if r.2.2 then 0 else 1),
       r.2.1 ++ acc.2.2.2)

/-- `min(10, len(self.symbols) * len(self.timeframes))`, the worker
bound of the round's thread pool. -/
def maxWorkersFor (symbols timeframes : List String) : Nat :=
  min 10 (symbols.length * timeframes.length)

/-- `TrendMonitor._perform_monitoring_round`: constructing the pool
with `max_workers ≤ 0` raises `ValueError` (CPython's
`ThreadPoolExecutor`) before any task is submitted; otherwise every
(symbol, timeframe) pair is submitted and the tasks run under task
isolation. -/
def performMonitoringRound (cfg : TAConfig)
    (symbols timeframes : List String)
    (fetch : String → String → Option (List Candle))
    (hist : List (String × TrendType)) :
    Except String
      (List (String × TrendType) × Nat × Nat ×
        List (String × TrendType × TrendType)) :=
  if maxWorkersFor symbols timeframes = 0 then
    Except.error "max_workers must be greater than 0"
  else
    Except.ok (runTasks cfg fetch
      (symbols.flatMap (fun s => timeframes.map (fun tf => (s, tf)))) hist)

/-- One iteration of `TrendMonitor._monitoring_loop`: a successful
round is followed by `sleep(max(0, interval − elapsed))`; an error
escaping the round is caught at the loop boundary, reported as an
ERROR system alert, and followed by the fixed 10-second backoff,
leaving the trend history untouched. -/
def monitoringLoopIteration (cfg : TAConfig)
    (symbols timeframes : List String)
    (fetch : String → String → Option (List Candle))
    (hist : List (String × TrendType)) (interval elapsed : ℚ) :
    List (String × TrendType) × List MonitorAction :=
  match performMonitoringRound cfg symbols timeframes fetch hist with
  | Except.ok r => (r.1, [MonitorAction.sleep (max 0 (interval - elapsed))])
  | Except.error e =>
      (hist,
       [MonitorAction.systemAlert AlertLevel.ERROR ("监测循环出错: " ++ e),
        MonitorAction.sleep 10])

/-- C10: with no monitored pairs (empty symbols or empty timeframes)
the round's pool bound is `min(10, 0) = 0`, so every round raises at
pool construction before submitting any task; the loop catches it,
sends a system ERROR alert, backs off the fixed 10 seconds, and the
trend history is never touched. -/
theorem empty_pairs_round_always_fails (cfg : TAConfig)
    (symbols timeframes : List String)
    (fetch : String → String → Option (List Candle))
    (hist : List (String × TrendType)) (interval elapsed : ℚ)
    (h : symbols = [] ∨ timeframes = []) :
    performMonitoringRound cfg symbols timeframes fetch hist
      = Except.error "max_workers must be greater than 0" ∧
    monitoringLoopIteration cfg symbols timeframes fetch hist interval elapsed
      = (hist,
         [MonitorAction.systemAlert AlertLevel.ERROR
            "监测循环出错: max_workers must be greater than 0",
          MonitorAction.sleep 10]) := by
  have hzero : maxWorkersFor symbols timeframes = 0 := by
    unfold maxWorkersFor
    rcases h with rfl | rfl <;> simp
  have hround : performMonitoringRound cfg symbols timeframes fetch hist
      = Except.error "max_workers must be greater than 0" := by
    unfold performMonitoringRound
    rw [if_pos hzero]
  refine ⟨hround, ?_⟩
  unfold monitoringLoopIteration
  rw [hround]
  rfl

/-- C10 witness: a concrete monitor with one timeframe but no symbols;
its round errors and its loop iteration leaves the (empty) history
unchanged after the alert and the 10-second backoff. -/
theorem empty_pairs_round_always_fails_witness :
    performMonitoringRound defaultConfig [] ["1h"] (fun _ _ => none) []
      = Except.error "max_workers must be greater than 0" ∧
    monitoringLoopIteration defaultConfig [] ["1h"] (fun _ _ => none) [] 60 1
      = ([],
         [MonitorAction.systemAlert AlertLevel.ERROR
            "监测循环出错: max_workers must be greater than 0",
          MonitorAction.sleep 10]) :=
  empty_pairs_round_always_fails defaultConfig [] ["1h"] (fun _ _ => none)
    [] 60 1 (Or.inl rfl)

end AiTradingGrid
